import Mathlib

/-!
Formal model of the TUIO medication broadcaster (src/main.py).

The Python source is shallowly embedded as pure Lean functions:

* floating-point coordinates and angles are modelled as exact rationals
  (decimal literals such as 0.08 and 0.52 become 8/100 and 52/100);
* the real constant 2*pi that the sector computation divides by is modelled
  as a parameter tau of a linear ordered field with a floor function, so the
  sector arithmetic is stated for every positive modulus (2*pi included)
  and stays computable at rational instances;
* the proximity test math.hypot(dx, dy) < 0.08 is modelled by the
  equivalent squared comparison dx^2 + dy^2 < 0.08^2 (hypot is the
  nonnegative square root, and squaring is strictly monotone on
  nonnegative reals, so the two tests agree);
* the Python dict latest_objects is modelled as an association list in
  insertion order (dict assignment replaces in place, insertion appends,
  iteration follows insertion order);
* an external TUIO object is modelled as a structure of optional
  attributes; for the four identifier attributes a doubly-optional field
  distinguishes an absent attribute from an attribute whose value is None,
  because the source probes presence with hasattr before reading the value;
* the try/except wrapper of _handle_obj is modelled with an Except-valued
  core and a Boolean fault flag on the external object standing for an
  object whose attribute access raises;
* code that only performs I/O (logging, sockets, JSON encoding) is dropped;
  "events broadcast" are modelled as the list of events a call produces, in
  emission order, and the TCP fan-out is modelled separately on an explicit
  channel state.
-/

namespace Main

/-- The event discriminator of a TUIO callback: add_tuio_object,
update_tuio_object or remove_tuio_object. -/
inductive EventType
  | add
  | update
  | remove
deriving DecidableEq

/-- The normalized record built by _handle_obj: event type, resolved
symbol id, session id (None possible), position and angle. -/
structure Record where
  event : EventType
  symbol_id : ℤ
  session_id : Option ℤ
  x : ℚ
  y : ℚ
  angle : ℚ
deriving DecidableEq

/-- One broadcast message, the closed set of dict shapes the source passes
to broadcast, tagged by their "type" field. -/
inductive OutEvent
  | tuio_obj (payload : Record)
  | medication_selected (medication : String) (symbolId : ℤ)
  | wheel_open (x y : ℚ)
  | wheel_hover (sector : ℤ) (angle : ℚ) (x y : ℚ) (medication : String)
  | wheel_select_confirm (sector : ℤ) (medication : String)
  | back_pressed
deriving DecidableEq

/-- ROTATE_SYMBOL = 0 in the source. -/
def ROTATE_SYMBOL : ℤ := 0

/-- SELECT_SYMBOL = 1 in the source. -/
def SELECT_SYMBOL : ℤ := 1

/-- BACK_SYMBOL = 12 in the source. -/
def BACK_SYMBOL : ℤ := 12

/-- The MEDICATION_SYMBOLS dict, in its literal (insertion) order. -/
def MEDICATION_SYMBOLS : List (ℤ × String) :=
  [(2, "Paracetamol"), (3, "Amoxicillin"), (4, "Aspirin"), (5, "Metformin"),
   (6, "Lisinopril"), (7, "Atorvastatin"), (8, "Omeprazole"),
   (9, "Salbutamol"), (10, "Ibuprofen"), (11, "Vitamin D")]

/-- NUM_WHEEL_SECTORS = len(MEDICATION_SYMBOLS). -/
def NUM_WHEEL_SECTORS : ℕ := MEDICATION_SYMBOLS.length

/-- PROXIMITY_THRESHOLD = 0.08, as the exact rational 8/100. -/
def PROXIMITY_THRESHOLD : ℚ := 8 / 100

/-- MEDICATION_SYMBOLS[i]: value of the medication dict at key i (the
source reads it only after a membership test, so the default is never
reached on the source's paths). -/
def medicationFor (i : ℤ) : String :=
  match MEDICATION_SYMBOLS.find? (fun p => p.1 == i) with
  | some p => p.2
  | none => ""

/-- list(MEDICATION_SYMBOLS.values())[sector]: the sector's medication by
position in the dict's insertion order. -/
def sectorMedication (sector : ℤ) : String :=
  (MEDICATION_SYMBOLS.map Prod.snd).getD sector.toNat ""

/-- Python float modulo a % b, which for the source's positive modulus
returns a - b * floor(a / b), a value in [0, b). -/
def pyFmod {K : Type} [LinearOrderedField K] [FloorRing K] (a b : K) : K :=
  a - b * ((Int.floor (a / b) : ℤ) : K)

/-- Python int() applied to a number: truncation toward zero. -/
def pyInt {K : Type} [LinearOrderedField K] [FloorRing K] (q : K) : ℤ :=
  if 0 ≤ q then Int.floor q else Int.ceil q

/-- The tail of the source's sector computation, starting from the already
computed fraction of a full turn: int(frac * NUM_WHEEL_SECTORS) %
NUM_WHEEL_SECTORS (Python % on integers with a positive divisor is
Euclidean remainder, which Int.emod matches). -/
def sectorFromFrac {K : Type} [LinearOrderedField K] [FloorRing K]
    (frac : K) (n : ℕ) : ℤ :=
  pyInt (frac * (n : K)) % (n : ℤ)

/-- The full sector computation of process_logic_and_broadcast:
theta = angle % tau; frac = theta / tau; sector = int(frac * n) % n,
where tau stands for the source's 2 * math.pi. -/
def sectorOf {K : Type} [LinearOrderedField K] [FloorRing K]
    (tau angle : K) (n : ℕ) : ℤ :=
  sectorFromFrac (pyFmod angle tau / tau) n

/-- The latest_objects dict: session id (None possible) to latest record,
kept in insertion order. -/
abbrev Registry := List (Option ℤ × Record)

/-- Dict assignment latest_objects[k] = v: replace the (unique) entry with
key k in place, or append a new entry at the end. -/
def registryUpsert : Registry → Option ℤ → Record → Registry
  | [], k, v => [(k, v)]
  | e :: rest, k, v =>
      if e.1 = k then (k, v) :: rest else e :: registryUpsert rest k v

/-- latest_objects.pop(k, None): drop the (unique) entry with key k if
present, no error if absent. -/
def registryPop : Registry → Option ℤ → Registry
  | [], _ => []
  | e :: rest, k => if e.1 = k then rest else e :: registryPop rest k

/-- Dict lookup latest_objects.get(k): the value at key k, if any. -/
def registryLookup : Registry → Option ℤ → Option Record
  | [], _ => none
  | e :: rest, k => if e.1 = k then some e.2 else registryLookup rest k

/-- Number of entries with key k (a Python dict always has at most one;
theorems carry that invariant as a hypothesis where they need it). -/
def countKey : Registry → Option ℤ → ℕ
  | [], _ => 0
  | e :: rest, k => (if e.1 = k then 1 else 0) + countKey rest k

/-- Squared Euclidean distance between the positions of two records
(dx * dx + dy * dy with dx = a.x - b.x, dy = a.y - b.y). -/
def distSq (a b : Record) : ℚ :=
  (a.x - b.x) * (a.x - b.x) + (a.y - b.y) * (a.y - b.y)

/-- process_logic_and_broadcast: given the registry state at call time and
the normalized record, the list of events broadcast, in emission order.
tau stands for the source's 2 * math.pi. -/
def processLogic (tau : ℚ) (reg : Registry) (rec : Record) : List OutEvent :=
  let raw := [OutEvent.tuio_obj rec]
  let direct :=
    if rec.symbol_id ∈ MEDICATION_SYMBOLS.map Prod.fst ∧ rec.event = EventType.add then
      [OutEvent.medication_selected (medicationFor rec.symbol_id) rec.symbol_id]
    else []
  let wheelOpen :=
    if rec.symbol_id = ROTATE_SYMBOL ∧ rec.event = EventType.add then
      [OutEvent.wheel_open rec.x rec.y]
    else []
  let wheel :=
    if rec.symbol_id = ROTATE_SYMBOL ∧
        (rec.event = EventType.add ∨ rec.event = EventType.update) then
      let theta := pyFmod rec.angle tau
      let sector := sectorOf tau rec.angle NUM_WHEEL_SECTORS
      OutEvent.wheel_hover sector theta rec.x rec.y (sectorMedication sector) ::
        reg.filterMap (fun e =>
          if e.2.symbol_id = SELECT_SYMBOL ∧
              distSq e.2 rec < PROXIMITY_THRESHOLD ^ 2 then
            some (OutEvent.wheel_select_confirm sector (sectorMedication sector))
          else none)
    else []
  let back :=
    if rec.symbol_id = BACK_SYMBOL ∧ rec.event = EventType.add then
      [OutEvent.back_pressed]
    else []
  raw ++ direct ++ wheelOpen ++ wheel ++ back

/-- An external TUIO object as seen through getattr. For the four
identifier attributes, the outer Option is attribute presence (hasattr)
and the inner Option is the attribute's value (None possible), because the
source probes presence before reading. For the other attributes a single
Option suffices: getattr with a default conflates an absent attribute with
the default. faulty = true stands for a pathological object whose
attribute access raises (a Python object may define a raising property);
it models the exception paths the try/except of _handle_obj guards. -/
structure ExternalObj where
  fiducial_id : Option (Option ℤ)
  symbol_id : Option (Option ℤ)
  class_id : Option (Option ℤ)
  pattern_id : Option (Option ℤ)
  session_id : Option ℤ
  x : Option ℚ
  xpos : Option ℚ
  x_pos : Option ℚ
  y : Option ℚ
  ypos : Option ℚ
  y_pos : Option ℚ
  angle : Option ℚ
  faulty : Bool

/-- The identifier fallback loop of _handle_obj: take the value of the
first present attribute among fiducial_id, symbol_id, class_id,
pattern_id; the event is discarded when the result is None (no attribute
present, or the first present one holds None). -/
def resolvedId (o : ExternalObj) : Option ℤ :=
  match o.fiducial_id with
  | some v => v
  | none =>
    match o.symbol_id with
    | some v => v
    | none =>
      match o.class_id with
      | some v => v
      | none =>
        match o.pattern_id with
        | some v => v
        | none => none

/-- getattr(obj, x, getattr(obj, xpos, getattr(obj, x_pos, 0.5))). -/
def resolveX (o : ExternalObj) : ℚ :=
  o.x.getD (o.xpos.getD (o.x_pos.getD (1 / 2)))

/-- getattr(obj, y, getattr(obj, ypos, getattr(obj, y_pos, 0.5))). -/
def resolveY (o : ExternalObj) : ℚ :=
  o.y.getD (o.ypos.getD (o.y_pos.getD (1 / 2)))

/-- getattr(obj, angle, 0). -/
def resolveAngle (o : ExternalObj) : ℚ :=
  o.angle.getD 0

/-- The record _handle_obj builds, or none when no marker id resolves (the
discard branch). session_id is getattr(obj, session_id, None). -/
def normalizeRecord (evt : EventType) (o : ExternalObj) : Option Record :=
  match resolvedId o with
  | none => none
  | some i =>
      some ⟨evt, i, o.session_id, resolveX o, resolveY o, resolveAngle o⟩

/-- The body of _handle_obj inside its try block: resolve attributes,
discard if no id, update latest_objects (upsert on add/update, pop on
remove) and only then run process_logic_and_broadcast on the updated
registry. Returns the new registry and the events broadcast. -/
def handleObjCore (tau : ℚ) (reg : Registry) (evt : EventType)
    (o : ExternalObj) : Registry × List OutEvent :=
  match normalizeRecord evt o with
  | none => (reg, [])
  | some rec =>
      let reg2 :=
        if evt = EventType.add ∨ evt = EventType.update then
          registryUpsert reg rec.session_id rec
        else
          registryPop reg rec.session_id
      (reg2, processLogic tau reg2 rec)

/-- The fallible view of _handle_obj: a faulty object raises at attribute
access, before any state was touched. -/
def handleObjE (tau : ℚ) (reg : Registry) (evt : EventType)
    (o : ExternalObj) : Except String (Registry × List OutEvent) :=
  if o.faulty then Except.error "attribute access raised"
  else Except.ok (handleObjCore tau reg evt o)

/-- _handle_obj as the decoder sees it: the try/except turns every raised
exception into a log line, leaving state untouched and returning normally. -/
def handleObj (tau : ℚ) (reg : Registry) (evt : EventType)
    (o : ExternalObj) : Registry × List OutEvent :=
  match handleObjE tau reg evt o with
  | Except.ok r => r
  | Except.error _ => (reg, [])

/-- One connected client socket: broken = sendall raises on it, closed =
its transport has been closed, sent = the lines delivered to it so far. -/
structure Channel where
  id : ℕ
  broken : Bool
  closed : Bool
  sent : List String
deriving DecidableEq

/-- A successful sendall of one serialized line. -/
def deliver (data : String) (c : Channel) : Channel :=
  { c with sent := c.sent ++ [data] }

/-- client_socket.sendall(data): raises exactly on a broken channel. -/
def trySendAll (data : String) (c : Channel) : Except Unit Channel :=
  if c.broken then Except.error () else Except.ok (deliver data c)

/-- The first loop of broadcast: send to every client in order, catching
each failure; returns the clients after the send attempts and the dead
list in the order failures were met. -/
def broadcastSend (data : String) : List Channel → List Channel × List Channel
  | [] => ([], [])
  | c :: cs =>
      let rest := broadcastSend data cs
      match trySendAll data c with
      | Except.ok c2 => (c2 :: rest.1, rest.2)
      | Except.error _ => (c :: rest.1, c :: rest.2)

/-- broadcast: serialize once (data), attempt delivery to every registered
client, then run clients.remove(dead_client) for each collected dead
client (removal of the first equal element). Returns the surviving client
list and the removed clients exactly as broadcast leaves them. -/
def broadcast (data : String) (cs : List Channel) : List Channel × List Channel :=
  let (after, dead) := broadcastSend data cs
  (dead.foldl (fun l d => l.erase d) after, dead)

/-- tcp_acceptor: clients.append(conn). -/
def register (cs : List Channel) (c : Channel) : List Channel :=
  cs ++ [c]

/-- client_reader_thread cleanup: if conn in clients: clients.remove(conn). -/
def unregister (cs : List Channel) (c : Channel) : List Channel :=
  if c ∈ cs then cs.erase c else cs

/-- The rotate-token record of the simulation: SimulatedTuioObject(0, 1000,
0.5, 0.5, 0), already normalized and live in the registry. -/
def rotRec : Record :=
  ⟨EventType.add, 0, some 1000, 1 / 2, 1 / 2, 0⟩

/-- A registry holding exactly the live rotate token. -/
def demoReg : Registry := [(some 1000, rotRec)]

/-- The select-token object of the simulation: SimulatedTuioObject(1, 1001,
0.52, 0.52), which sets all four id attributes, x, y, x_pos, y_pos and
angle = 0. -/
def selObj : ExternalObj :=
  { fiducial_id := some (some 1), symbol_id := some (some 1),
    class_id := some (some 1), pattern_id := some (some 1),
    session_id := some 1001,
    x := some (52 / 100), xpos := none, x_pos := some (52 / 100),
    y := some (52 / 100), ypos := none, y_pos := some (52 / 100),
    angle := some 0, faulty := false }

/-- The normalized record of selObj for an add event. -/
def selRec : Record :=
  ⟨EventType.add, 1, some 1001, 52 / 100, 52 / 100, 0⟩

/-- A healthy connected client. -/
def cexGood : Channel := ⟨0, false, false, []⟩

/-- A client whose sendall raises; its transport is not closed. -/
def cexBad : Channel := ⟨1, true, false, []⟩

/-- A concrete object for the remove-event claims: marker id 9, session 5. -/
def c4Obj : ExternalObj :=
  { fiducial_id := some (some 9), symbol_id := none, class_id := none,
    pattern_id := none, session_id := some 5,
    x := some (1 / 4), xpos := none, x_pos := none,
    y := some (1 / 4), ypos := none, y_pos := none,
    angle := some 0, faulty := false }

/-- The normalized record of c4Obj for a remove event. -/
def c4Rec : Record :=
  ⟨EventType.remove, 9, some 5, 1 / 4, 1 / 4, 0⟩

/-- A registry holding one live object under session 5. -/
def c4Reg : Registry :=
  [(some 5, ⟨EventType.add, 9, some 5, 1 / 4, 1 / 4, 0⟩)]

/-- An object exposing only a class_id attribute and nothing else: every
position, angle and session attribute is missing. -/
def c5Obj : ExternalObj :=
  { fiducial_id := none, symbol_id := none, class_id := some (some 3),
    pattern_id := none, session_id := some 77,
    x := none, xpos := none, x_pos := none,
    y := none, ypos := none, y_pos := none,
    angle := none, faulty := false }

/-- The normalized record of c5Obj: defaulted position and angle. -/
def c5Rec : Record :=
  ⟨EventType.add, 3, some 77, 1 / 2, 1 / 2, 0⟩

/-- An object with no recognizable identifier attribute at all. -/
def c6Obj : ExternalObj :=
  { fiducial_id := none, symbol_id := none, class_id := none,
    pattern_id := none, session_id := some 4,
    x := some (3 / 10), xpos := none, x_pos := none,
    y := some (3 / 10), ypos := none, y_pos := none,
    angle := some 1, faulty := false }

/-- An object removing a session that the registry does not hold. -/
def c7Obj : ExternalObj :=
  { fiducial_id := some (some 6), symbol_id := none, class_id := none,
    pattern_id := none, session_id := some 999,
    x := some (1 / 3), xpos := none, x_pos := none,
    y := some (1 / 3), ypos := none, y_pos := none,
    angle := some 0, faulty := false }

/-- The normalized record of c7Obj for a remove event. -/
def c7Rec : Record :=
  ⟨EventType.remove, 6, some 999, 1 / 3, 1 / 3, 0⟩

/-- A pathological object whose attribute access raises. -/
def c9Obj : ExternalObj :=
  { fiducial_id := some (some 2), symbol_id := none, class_id := none,
    pattern_id := none, session_id := some 7,
    x := none, xpos := none, x_pos := none,
    y := none, ypos := none, y_pos := none,
    angle := none, faulty := true }

/-- An object that resolves marker id 3 but has no session_id attribute. -/
def c10Obj : ExternalObj :=
  { fiducial_id := some (some 3), symbol_id := none, class_id := none,
    pattern_id := none, session_id := none,
    x := some (6 / 10), xpos := none, x_pos := none,
    y := some (6 / 10), ypos := none, y_pos := none,
    angle := some 2, faulty := false }

/-! ## Helper lemmas -/

/-- After a dict assignment the key maps to the new value. -/
theorem registryLookup_upsert (reg : Registry) (k : Option ℤ) (v : Record) :
    registryLookup (registryUpsert reg k v) k = some v := by
  induction reg with
  | nil => simp [registryUpsert, registryLookup]
  | cons e rest ih =>
    by_cases h : e.1 = k
    · simp [registryUpsert, h, registryLookup]
    · simp [registryUpsert, h, registryLookup, ih]

/-- A key counted zero times is absent. -/
theorem registryLookup_of_countKey_zero (reg : Registry) (k : Option ℤ)
    (h : countKey reg k = 0) : registryLookup reg k = none := by
  induction reg with
  | nil => rfl
  | cons e rest ih =>
    by_cases he : e.1 = k
    · simp [countKey, he] at h
    · simp [countKey, he] at h
      simp [registryLookup, he, ih h]

/-- Dict assignment at a key held at most once leaves it held exactly once. -/
theorem countKey_upsert (reg : Registry) (k : Option ℤ) (v : Record)
    (h : countKey reg k ≤ 1) : countKey (registryUpsert reg k v) k = 1 := by
  induction reg with
  | nil => simp [registryUpsert, countKey]
  | cons e rest ih =>
    by_cases he : e.1 = k
    · have h0 : countKey rest k = 0 := by
        simp [countKey, he] at h
        omega
      simp [registryUpsert, he, countKey, h0]
    · simp [countKey, he] at h
      simp [registryUpsert, he, countKey, ih h]

/-- Popping a key held at most once makes it absent. -/
theorem registryLookup_pop (reg : Registry) (k : Option ℤ)
    (h : countKey reg k ≤ 1) :
    registryLookup (registryPop reg k) k = none := by
  induction reg with
  | nil => rfl
  | cons e rest ih =>
    by_cases he : e.1 = k
    · have h0 : countKey rest k = 0 := by
        simp [countKey, he] at h
        omega
      simp [registryPop, he, registryLookup_of_countKey_zero rest k h0]
    · simp [countKey, he] at h
      simp [registryPop, registryLookup, he, ih h]

/-- Popping an absent key is the identity. -/
theorem registryPop_of_lookup_none (reg : Registry) (k : Option ℤ)
    (h : registryLookup reg k = none) : registryPop reg k = reg := by
  induction reg with
  | nil => rfl
  | cons e rest ih =>
    by_cases he : e.1 = k
    · simp [registryLookup, he] at h
    · simp [registryLookup, he] at h
      simp [registryPop, he, ih h]

/-- A remove event takes only the unconditional raw-passthrough branch of
process_logic_and_broadcast. -/
theorem processLogic_remove (tau : ℚ) (reg : Registry) (rec : Record)
    (h : rec.event = EventType.remove) :
    processLogic tau reg rec = [OutEvent.tuio_obj rec] := by
  simp [processLogic, h]

/-- An add event for the select symbol (1) takes only the raw-passthrough
branch: 1 is not a medication key, not the rotate symbol, not the back
symbol, and the proximity scan runs only under the rotate-symbol guard. -/
theorem processLogic_select_add (tau : ℚ) (reg : Registry) (rec : Record)
    (h1 : rec.symbol_id = SELECT_SYMBOL) (h2 : rec.event = EventType.add) :
    processLogic tau reg rec = [OutEvent.tuio_obj rec] := by
  simp [processLogic, h1, h2, SELECT_SYMBOL, ROTATE_SYMBOL, BACK_SYMBOL,
    MEDICATION_SYMBOLS]

/-- The raw passthrough is always among the emitted events. -/
theorem processLogic_raw_mem (tau : ℚ) (reg : Registry) (rec : Record) :
    OutEvent.tuio_obj rec ∈ processLogic tau reg rec := by
  simp [processLogic]

/-! ## Claim theorems -/

/-- C2: for the sector computation (theta = angle mod tau, fraction =
theta / tau, sector = int(fraction * n) mod n, with tau standing for the
source's 2 * pi and n = NUM_WHEEL_SECTORS >= 1): for every angle, negative
ones included, the sector lies in [0, n); angle 0 yields sector 0; and a
fraction of exactly 1 wraps back to sector 0 through the final modulo. -/
theorem sector_range_zero_boundary {K : Type} [LinearOrderedField K]
    [FloorRing K] (tau : K) (_htau : 0 < tau) (angle : K) (n : ℕ)
    (hn : 1 ≤ n) :
    (0 ≤ sectorOf tau angle n ∧ sectorOf tau angle n < (n : ℤ)) ∧
    sectorOf tau (0 : K) n = 0 ∧
    sectorFromFrac (1 : K) n = 0 := by
  have hn0 : (n : ℤ) ≠ 0 := by exact_mod_cast Nat.one_le_iff_ne_zero.mp hn
  have hnpos : (0 : ℤ) < (n : ℤ) := by exact_mod_cast hn
  refine ⟨⟨?_, ?_⟩, ?_, ?_⟩
  · exact Int.emod_nonneg _ hn0
  · exact Int.emod_lt_of_pos _ hnpos
  · simp [sectorOf, sectorFromFrac, pyFmod, pyInt]
  · have hcast : (0 : K) ≤ ((n : ℕ) : K) := by positivity
    simp [sectorFromFrac, pyInt, hcast, Int.floor_natCast]

/-- Witness for C2 at the rational instance tau = 3, angle = -7, n = 10. -/
theorem sector_range_zero_boundary_witness :
    (0 ≤ sectorOf (3 : ℚ) (-7) 10 ∧ sectorOf (3 : ℚ) (-7) 10 < (10 : ℤ)) ∧
    sectorOf (3 : ℚ) (0 : ℚ) 10 = 0 ∧
    sectorFromFrac (1 : ℚ) 10 = 0 :=
  sector_range_zero_boundary (3 : ℚ) (by norm_num) (-7) 10 (by norm_num)

/-- C1: the code at the claimed scenario. A select-token (symbol 1) add
event while the live rotate token sits within the proximity threshold
emits only the raw tuio_obj passthrough and in particular no
wheel_select_confirm: the proximity scan of process_logic_and_broadcast
runs only under the rotate-symbol guard, so a select-token appearance
never confirms, contradicting the claim (and the narrative of the
source's own simulation, which announces that this very step confirms
the selection). -/
theorem select_add_emits_no_confirm : ∀ tau : ℚ,
    registryLookup demoReg (some 1000) = some rotRec ∧
    rotRec.symbol_id = ROTATE_SYMBOL ∧
    distSq rotRec selRec < PROXIMITY_THRESHOLD ^ 2 ∧
    (handleObj tau demoReg EventType.add selObj).2 = [OutEvent.tuio_obj selRec] ∧
    ∀ s m, OutEvent.wheel_select_confirm s m ∉
      (handleObj tau demoReg EventType.add selObj).2 := by
  intro tau
  have hcore : handleObj tau demoReg EventType.add selObj
      = (registryUpsert demoReg (some 1001) selRec,
         processLogic tau (registryUpsert demoReg (some 1001) selRec) selRec) := rfl
  have hpl : processLogic tau (registryUpsert demoReg (some 1001) selRec) selRec
      = [OutEvent.tuio_obj selRec] :=
    processLogic_select_add tau _ selRec rfl rfl
  refine ⟨rfl, rfl, by norm_num [distSq, rotRec, selRec, PROXIMITY_THRESHOLD], ?_, ?_⟩
  · rw [hcore]
    exact hpl
  · intro s m
    rw [hcore]
    simp [hpl]

/-- C4: a remove event emits only the raw passthrough and deletes the
object's registry entry, whatever its symbol id, position or angle. The
countKey hypothesis is the dict invariant (a Python dict holds a key at
most once). -/
theorem remove_emits_only_raw (tau : ℚ) (reg : Registry) (o : ExternalObj)
    (rec : Record) (hf : o.faulty = false)
    (hn : normalizeRecord EventType.remove o = some rec)
    (hk : countKey reg rec.session_id ≤ 1) :
    handleObj tau reg EventType.remove o
      = (registryPop reg rec.session_id, [OutEvent.tuio_obj rec]) ∧
    registryLookup (registryPop reg rec.session_id) rec.session_id = none := by
  have hev : rec.event = EventType.remove := by
    cases hro : resolvedId o with
    | none => simp [normalizeRecord, hro] at hn
    | some i =>
      simp [normalizeRecord, hro] at hn
      rw [← hn]
  constructor
  · simp only [handleObj, handleObjE, hf, Bool.false_eq_true, if_false,
      handleObjCore, hn]
    simp [processLogic_remove tau _ rec hev]
  · exact registryLookup_pop reg rec.session_id hk

/-- Witness for C4 at a registry holding session 5 and a remove of it. -/
theorem remove_emits_only_raw_witness :
    (handleObj 1 c4Reg EventType.remove c4Obj
      = (registryPop c4Reg (some 5), [OutEvent.tuio_obj c4Rec]) ∧
    registryLookup (registryPop c4Reg (some 5)) (some 5) = none) :=
  remove_emits_only_raw 1 c4Reg c4Obj c4Rec rfl rfl (by decide)

/-- C5: attribute normalization uses defaulted fallbacks (a fully missing
position defaults to (0.5, 0.5), a missing angle to 0), and on add and
update events _handle_obj writes the normalized record into the registry
before calling process_logic_and_broadcast, so the proximity scan reads a
registry that already maps the event's session id to the event's own
record. -/
theorem normalize_defaults_and_update_order (tau : ℚ) (reg : Registry)
    (evt : EventType) (o : ExternalObj) :
    (o.x = none → o.xpos = none → o.x_pos = none → resolveX o = 1 / 2) ∧
    (o.y = none → o.ypos = none → o.y_pos = none → resolveY o = 1 / 2) ∧
    (o.angle = none → resolveAngle o = 0) ∧
    (∀ rec, o.faulty = false → normalizeRecord evt o = some rec →
      (evt = EventType.add ∨ evt = EventType.update) →
      handleObj tau reg evt o
        = (registryUpsert reg rec.session_id rec,
           processLogic tau (registryUpsert reg rec.session_id rec) rec) ∧
      registryLookup (registryUpsert reg rec.session_id rec) rec.session_id
        = some rec) := by
  refine ⟨?_, ?_, ?_, ?_⟩
  · intro h1 h2 h3
    simp [resolveX, h1, h2, h3]
  · intro h1 h2 h3
    simp [resolveY, h1, h2, h3]
  · intro h
    simp [resolveAngle, h]
  · intro rec hf hn hevt
    constructor
    · have hif : (evt = EventType.add ∨ evt = EventType.update) = True := by
        simp [hevt]
      simp only [handleObj, handleObjE, hf, Bool.false_eq_true, if_false,
        handleObjCore, hn, hif, if_true]
    · exact registryLookup_upsert reg rec.session_id rec

/-- Witness for C5 at an object with no position and no angle attribute. -/
theorem normalize_defaults_and_update_order_witness :
    resolveX c5Obj = 1 / 2 ∧ resolveY c5Obj = 1 / 2 ∧
    resolveAngle c5Obj = 0 ∧
    handleObj 1 [] EventType.add c5Obj
      = (registryUpsert [] (some 77) c5Rec,
         processLogic 1 (registryUpsert [] (some 77) c5Rec) c5Rec) ∧
    registryLookup (registryUpsert [] (some 77) c5Rec) (some 77)
      = some c5Rec := by
  have h := normalize_defaults_and_update_order 1 [] EventType.add c5Obj
  exact ⟨h.1 rfl rfl rfl, h.2.1 rfl rfl rfl, h.2.2.1 rfl,
    (h.2.2.2 c5Rec rfl rfl (Or.inl rfl)).1,
    (h.2.2.2 c5Rec rfl rfl (Or.inl rfl)).2⟩

/-- C6: an inbound object exposing none of the recognized identifier
attributes is discarded: the registry is unchanged and nothing at all is
broadcast. -/
theorem unresolvable_object_discarded (tau : ℚ) (reg : Registry)
    (evt : EventType) (o : ExternalObj)
    (h1 : o.fiducial_id = none) (h2 : o.symbol_id = none)
    (h3 : o.class_id = none) (h4 : o.pattern_id = none) :
    handleObj tau reg evt o = (reg, []) := by
  cases hfa : o.faulty with
  | true => simp [handleObj, handleObjE, hfa]
  | false =>
    simp [handleObj, handleObjE, hfa, handleObjCore, normalizeRecord,
      resolvedId, h1, h2, h3, h4]

/-- Witness for C6 at a concrete identifier-free object. -/
theorem unresolvable_object_discarded_witness :
    handleObj 1 [] EventType.add c6Obj = ([], []) :=
  unresolvable_object_discarded 1 [] EventType.add c6Obj rfl rfl rfl rfl

/-- C7: a remove event for a session id the registry does not hold leaves
the registry unchanged and raises no error (the call returns normally,
emitting just the raw passthrough). -/
theorem remove_absent_session_noop (tau : ℚ) (reg : Registry)
    (o : ExternalObj) (rec : Record) (hf : o.faulty = false)
    (hn : normalizeRecord EventType.remove o = some rec)
    (habs : registryLookup reg rec.session_id = none) :
    handleObj tau reg EventType.remove o = (reg, [OutEvent.tuio_obj rec]) := by
  have hev : rec.event = EventType.remove := by
    cases hro : resolvedId o with
    | none => simp [normalizeRecord, hro] at hn
    | some i =>
      simp [normalizeRecord, hro] at hn
      rw [← hn]
  have hpop := registryPop_of_lookup_none reg rec.session_id habs
  simp only [handleObj, handleObjE, hf, Bool.false_eq_true, if_false,
    handleObjCore, hn]
  simp [hpop, processLogic_remove tau _ rec hev]

/-- Witness for C7: removing session 999 from the empty registry. -/
theorem remove_absent_session_noop_witness :
    handleObj 1 [] EventType.remove c7Obj = ([], [OutEvent.tuio_obj c7Rec]) :=
  remove_absent_session_noop 1 [] c7Obj c7Rec rfl rfl rfl

/-- C9: the try/except of _handle_obj makes the callback total: an object
whose attribute access raises is caught and logged, the callback returns
normally with the state untouched, and a non-raising object is handled by
the body unchanged. No exception reaches the decoder. -/
theorem handle_obj_never_raises (tau : ℚ) (reg : Registry)
    (evt : EventType) (o : ExternalObj) :
    (o.faulty = true → handleObj tau reg evt o = (reg, [])) ∧
    (o.faulty = false →
      handleObj tau reg evt o = handleObjCore tau reg evt o) := by
  constructor <;> intro h <;> simp [handleObj, handleObjE, h]

/-- Witness for C9 at a raising object: the callback returns normally. -/
theorem handle_obj_never_raises_witness :
    handleObj 1 [] EventType.add c9Obj = ([], []) :=
  (handle_obj_never_raises 1 [] EventType.add c9Obj).1 rfl

/-- C10: an object that resolves a marker id but exposes no session_id
attribute is still fully processed: the normalized record carries session
id None, an add stores it in the registry under the key None (and emits at
least the raw passthrough), every such object ends up in the single
key-None entry (the dict invariant hypothesis is discharged by any
reachable registry), and a remove deletes the key-None entry. -/
theorem missing_session_uses_none_key (tau : ℚ) (reg : Registry)
    (o : ExternalObj) (i : ℤ) (hf : o.faulty = false)
    (hid : resolvedId o = some i) (hs : o.session_id = none) :
    normalizeRecord EventType.add o
      = some ⟨EventType.add, i, none, resolveX o, resolveY o, resolveAngle o⟩ ∧
    handleObj tau reg EventType.add o
      = (registryUpsert reg none
           ⟨EventType.add, i, none, resolveX o, resolveY o, resolveAngle o⟩,
         processLogic tau
           (registryUpsert reg none
             ⟨EventType.add, i, none, resolveX o, resolveY o, resolveAngle o⟩)
           ⟨EventType.add, i, none, resolveX o, resolveY o, resolveAngle o⟩) ∧
    OutEvent.tuio_obj
        (⟨EventType.add, i, none, resolveX o, resolveY o, resolveAngle o⟩ : Record)
      ∈ (handleObj tau reg EventType.add o).2 ∧
    (countKey reg none ≤ 1 →
      countKey (registryUpsert reg none
        ⟨EventType.add, i, none, resolveX o, resolveY o, resolveAngle o⟩) none
        = 1) ∧
    handleObj tau reg EventType.remove o
      = (registryPop reg none,
         [OutEvent.tuio_obj
           ⟨EventType.remove, i, none, resolveX o, resolveY o, resolveAngle o⟩]) := by
  have hnadd : normalizeRecord EventType.add o
      = some ⟨EventType.add, i, none, resolveX o, resolveY o, resolveAngle o⟩ := by
    simp [normalizeRecord, hid, hs]
  have hnrem : normalizeRecord EventType.remove o
      = some ⟨EventType.remove, i, none, resolveX o, resolveY o, resolveAngle o⟩ := by
    simp [normalizeRecord, hid, hs]
  have hadd : handleObj tau reg EventType.add o
      = (registryUpsert reg none
           ⟨EventType.add, i, none, resolveX o, resolveY o, resolveAngle o⟩,
         processLogic tau
           (registryUpsert reg none
             ⟨EventType.add, i, none, resolveX o, resolveY o, resolveAngle o⟩)
           ⟨EventType.add, i, none, resolveX o, resolveY o, resolveAngle o⟩) := by
    simp only [handleObj, handleObjE, hf, Bool.false_eq_true, if_false,
      handleObjCore, hnadd]
    simp
  refine ⟨hnadd, hadd, ?_, ?_, ?_⟩
  · rw [hadd]
    exact processLogic_raw_mem tau _ _
  · intro hcnt
    exact countKey_upsert reg none _ hcnt
  · simp only [handleObj, handleObjE, hf, Bool.false_eq_true, if_false,
      handleObjCore, hnrem]
    simp [processLogic_remove tau (registryPop reg none)
      ⟨EventType.remove, i, none, resolveX o, resolveY o, resolveAngle o⟩ rfl]

/-- Witness for C10 at a session-free object with marker id 3. -/
theorem missing_session_uses_none_key_witness :
    normalizeRecord EventType.add c10Obj
      = some ⟨EventType.add, 3, none, 6 / 10, 6 / 10, 2⟩ ∧
    OutEvent.tuio_obj (⟨EventType.add, 3, none, 6 / 10, 6 / 10, 2⟩ : Record)
      ∈ (handleObj 1 [] EventType.add c10Obj).2 ∧
    countKey (registryUpsert []
      none ⟨EventType.add, 3, none, 6 / 10, 6 / 10, 2⟩) none = 1 := by
  have h := missing_session_uses_none_key 1 [] c10Obj 3 rfl rfl rfl
  exact ⟨h.1, h.2.2.1, h.2.2.2.1 (by decide)⟩

/-- The send loop of broadcast appends the line to every non-broken client
and collects exactly the broken ones, in order. -/
theorem broadcastSend_spec (data : String) (cs : List Channel) :
    broadcastSend data cs
      = (cs.map (fun c => if c.broken then c else deliver data c),
         cs.filter (fun c => c.broken)) := by
  induction cs with
  | nil => rfl
  | cons c cs ih =>
    cases hc : c.broken <;> simp [broadcastSend, trySendAll, hc, ih]

/-- When every client is healthy, the post-send list is the delivered
filter image. -/
theorem sendMap_all_ok (data : String) (cs : List Channel)
    (h : ∀ x ∈ cs, x.broken = false) :
    cs.map (fun c => if c.broken then c else deliver data c)
      = (cs.filter (fun c => !c.broken)).map (deliver data) := by
  induction cs with
  | nil => rfl
  | cons c cs ih =>
    have hc := h c (List.mem_cons_self c cs)
    simp [hc, ih (fun x hx => h x (List.mem_cons_of_mem c hx))]

/-- Erasing the unique broken client from the post-send list leaves
exactly the delivered healthy clients. -/
theorem sendMap_erase (data : String) (cs : List Channel) (b : Channel)
    (huniq : cs.filter (fun c => c.broken) = [b]) :
    (cs.map (fun c => if c.broken then c else deliver data c)).erase b
      = (cs.filter (fun c => !c.broken)).map (deliver data) := by
  have hb : b.broken = true := by
    have hmem : b ∈ cs.filter (fun c => c.broken) := by
      rw [huniq]
      exact List.mem_singleton_self b
    exact List.of_mem_filter hmem
  induction cs with
  | nil => simp at huniq
  | cons c cs ih =>
    cases hc : c.broken with
    | true =>
      rw [List.filter_cons_of_pos hc] at huniq
      obtain ⟨hcb, hnil⟩ := List.cons_eq_cons.mp huniq
      subst hcb
      have hall : ∀ x ∈ cs, x.broken = false := by
        intro x hx
        have := List.filter_eq_nil_iff.mp hnil x hx
        simpa using this
      have hrest := sendMap_all_ok data cs hall
      have hfs : cs.filter (fun c => !c.broken) = cs :=
        List.filter_eq_self.mpr (fun x hx => by simp [hall x hx])
      simp [hc, List.erase_cons_head, hrest, hfs]
    | false =>
      rw [List.filter_cons_of_neg (by simp [hc])] at huniq
      have hne : deliver data c ≠ b := by
        intro hdb
        have : (deliver data c).broken = b.broken := by rw [hdb]
        simp [deliver, hc, hb] at this
      have ihr := ih huniq
      rw [List.map_cons]
      simp only [hc, if_false]
      rw [List.erase_cons_tail (by simp [hne])]
      rw [ihr, List.filter_cons_of_pos (by simp [hc]), List.map_cons]
      simp

/-- Splitting a client list by the broken flag preserves its length. -/
theorem filter_broken_length (cs : List Channel) :
    (cs.filter (fun c => !c.broken)).length
      + (cs.filter (fun c => c.broken)).length = cs.length := by
  induction cs with
  | nil => rfl
  | cons c cs ih =>
    cases hc : c.broken <;> simp [hc, ← ih] <;> omega

/-- C3 counterexample: publishing over one healthy and one broken client
removes exactly the broken client from the fan-out set, yet the removed
channel is not closed — broadcast never closes what it drops (the close
happens only later, in the reader thread), so the claim's "closes that
channel" fails at this input. -/
theorem broadcast_leaves_removed_channel_open :
    (broadcast "ev" [cexGood, cexBad]).2 = [cexBad] ∧
    ¬ (∀ c ∈ (broadcast "ev" [cexGood, cexBad]).2, c.closed = true) := by
  decide

/-- C3 amended: for every published line and every client list of which
exactly one client fails on send, publish delivers the serialized line to
the remaining N - 1 clients, removes exactly the failing client from the
fan-out set and raises no error to the publisher (broadcast is a total
function of the client state); but it leaves the removed client's
transport exactly as it found it instead of closing it. -/
theorem broadcast_one_failure (data : String) (cs : List Channel)
    (b : Channel) (huniq : cs.filter (fun c => c.broken) = [b]) :
    (broadcast data cs).1
      = (cs.filter (fun c => !c.broken)).map (deliver data) ∧
    (broadcast data cs).1.length + 1 = cs.length ∧
    (broadcast data cs).2 = [b] ∧
    ∀ c ∈ (broadcast data cs).2, c.closed = b.closed := by
  have hb : broadcast data cs
      = (((cs.map (fun c => if c.broken then c else deliver data c)).erase b),
         [b]) := by
    simp [broadcast, broadcastSend_spec, huniq]
  rw [hb]
  refine ⟨sendMap_erase data cs b huniq, ?_, rfl, ?_⟩
  · rw [sendMap_erase data cs b huniq]
    have hlen := filter_broken_length cs
    rw [huniq] at hlen
    simpa using hlen
  · intro c hc
    rw [List.mem_singleton.mp hc]

/-- Witness for C3 amended at the two-client instance. -/
theorem broadcast_one_failure_witness :
    (broadcast "ev" [cexGood, cexBad]).1
      = ([cexGood, cexBad].filter (fun c => !c.broken)).map (deliver "ev") ∧
    (broadcast "ev" [cexGood, cexBad]).1.length + 1
      = [cexGood, cexBad].length ∧
    (broadcast "ev" [cexGood, cexBad]).2 = [cexBad] ∧
    ∀ c ∈ (broadcast "ev" [cexGood, cexBad]).2, c.closed = cexBad.closed :=
  broadcast_one_failure "ev" [cexGood, cexBad] cexBad (by decide)

/-- C8: appending a channel to the hub's client list and then immediately
running the reader-thread removal leaves the delivery set at its previous
size, whatever the starting list. -/
theorem register_then_unregister_length (cs : List Channel) (c : Channel) :
    (unregister (register cs c) c).length = cs.length := by
  have hmem : c ∈ register cs c := by simp [register]
  have hlen := List.length_erase_of_mem hmem
  simp only [unregister, hmem, if_true, hlen, register]
  simp

end Main
